import Mathlib

/-!
Shallow embedding of the webhook service in src/main.py.

The service keeps one process-wide mutable list of received transaction
dictionaries.  Here the store is an explicit value of type Store, and every
HTTP handler is a pure function from the store (plus the request data and
the current wall-clock reading, passed explicitly) to the pair of the store
after the call and the JSON response.  Machine time (datetime.now) is an
explicit parameter: an ISO string for received_at fields, and a broken-down
DateTime for the strftime-derived batch identifier.
-/

/-- Pydantic request model UserTransaction: five optional fields. -/
structure UserTransaction where
  authorizer_usrnbr : Option Int
  creat_usrnbr : Option Int
  creat_time : Option String
  data : Option String
  usrname : Option String
  deriving DecidableEq

/-- One stored dictionary: transaction.dict() plus the metadata keys added
by the handlers (received_at, poc_id, and for batch ingestion batch_id;
single ingestion never sets a batch_id key, modelled as none). -/
structure StoredTransaction where
  authorizer_usrnbr : Option Int
  creat_usrnbr : Option Int
  creat_time : Option String
  data : Option String
  usrname : Option String
  received_at : String
  poc_id : Nat
  batch_id : Option String
  deriving DecidableEq

/-- The module-level list received_transactions. -/
abbrev Store := List StoredTransaction

/-- Build the stored dictionary from a parsed transaction plus metadata. -/
def dictOf (t : UserTransaction) (iso : String) (pid : Nat) (bid : Option String) :
    StoredTransaction :=
  ⟨t.authorizer_usrnbr, t.creat_usrnbr, t.creat_time, t.data, t.usrname, iso, pid, bid⟩

/-- Recover the request-level fields of a stored dictionary. -/
def txOf (r : StoredTransaction) : UserTransaction :=
  ⟨r.authorizer_usrnbr, r.creat_usrnbr, r.creat_time, r.data, r.usrname⟩

/-- A broken-down wall-clock reading, as consumed by strftime. -/
structure DateTime where
  year : Nat
  month : Nat
  day : Nat
  hour : Nat
  minute : Nat
  second : Nat
  deriving DecidableEq

/-- The decimal digit character for n mod 10. -/
def digitChar (n : Nat) : Char := Char.ofNat (48 + n % 10)

/-- Two-digit zero-padded decimal rendering, as strftime %m %d %H %M %S. -/
def pad2d (n : Nat) : List Char := [digitChar (n / 10), digitChar n]

/-- Four-digit zero-padded decimal rendering, as strftime %Y for years
below 10000. -/
def pad4d (n : Nat) : List Char :=
  [digitChar (n / 1000), digitChar (n / 100), digitChar (n / 10), digitChar n]

/-- datetime.now().strftime of the pattern YYYYMMDD underscore HHMMSS used
for batch_id in receive_batch_transactions. -/
def formatBatchId (t : DateTime) : String :=
  String.mk (pad4d t.year ++ pad2d t.month ++ pad2d t.day ++ ['_'] ++
    pad2d t.hour ++ pad2d t.minute ++ pad2d t.second)

/-- Checks the shape YYYYMMDD underscore HHMMSS: fifteen characters, eight
digits, an underscore, six digits. -/
def isBatchIdShape (s : String) : Bool :=
  match s.data with
  | [a, b, c, d, e, f, g, h, u, i, j, k, l, m, n] =>
      a.isDigit && b.isDigit && c.isDigit && d.isDigit &&
      e.isDigit && f.isDigit && g.isDigit && h.isDigit &&
      (u == '_') &&
      i.isDigit && j.isDigit && k.isDigit &&
      l.isDigit && m.isDigit && n.isDigit
  | _ => false

/-- Response body of POST /webhook/user-transactions. -/
structure SingleResponse where
  status : String
  message : String
  poc_id : Nat
  user : Option String
  received_at : String
  deriving DecidableEq

/-- Response body of POST /webhook/user-transactions/batch. -/
structure BatchResponse where
  status : String
  message : String
  batch_id : String
  total_received : Nat
  deriving DecidableEq

/-- Response body of GET /webhook/user-transactions. -/
structure ListResponse where
  total_count : Nat
  last_10_transactions : List StoredTransaction
  last_updated : String
  poc_status : String
  deriving DecidableEq

/-- Response body of GET /. -/
structure RootResponse where
  message : String
  status : String
  timestamp : String
  total_received : Nat
  service_source : String
  service_topic : String
  service_purpose : String
  deriving DecidableEq

/-- Response body of GET /health. -/
structure HealthResponse where
  status : String
  timestamp : String
  service : String
  total_transactions : Nat
  deriving DecidableEq

/-- Empty-store response body of GET /poc/stats. -/
structure WaitingStats where
  message : String
  total_count : Nat
  status : String
  deriving DecidableEq

/-- Non-empty-store response body of GET /poc/stats. -/
structure DataStats where
  total_transactions : Nat
  unique_users : Nat
  user_list : List String
  first_transaction : Option String
  last_transaction : Option String
  poc_status : String
  deriving DecidableEq

/-- Handler of POST /webhook/user-transactions (receive_user_transaction):
appends transaction.dict() extended with received_at and
poc_id = len(received_transactions) + 1, and acknowledges. -/
def receive_user_transaction (store : Store) (t : UserTransaction) (iso : String) :
    Store × SingleResponse :=
  (store ++ [dictOf t iso (store.length + 1) none],
   { status := "success"
     message := "User transaction received successfully"
     poc_id := store.length + 1
     user := t.usrname
     received_at := iso })

/-- Runs a sequence of single-ingest calls in order; each call supplies its
transaction and the ISO timestamp read at that call.  Returns the final
store and the list of responses in call order. -/
def runSingles : List (UserTransaction × String) → Store → Store × List SingleResponse
  | [], store => (store, [])
  | (t, iso) :: rest, store =>
      let p := receive_user_transaction store t iso
      let q := runSingles rest p.1
      (q.1, p.2 :: q.2)

/-- The dictionaries appended by a run of single-ingest calls when the
store held n records at the start. -/
def singleRecords : Nat → List (UserTransaction × String) → Store
  | _, [] => []
  | n, (t, iso) :: rest => dictOf t iso (n + 1) none :: singleRecords (n + 1) rest

/-- The responses produced by a run of single-ingest calls when the store
held n records at the start. -/
def expectedResponses : Nat → List (UserTransaction × String) → List SingleResponse
  | _, [] => []
  | n, (t, iso) :: rest =>
      { status := "success"
        message := "User transaction received successfully"
        poc_id := n + 1
        user := t.usrname
        received_at := iso } :: expectedResponses (n + 1) rest

/-- The loop body of receive_batch_transactions: appends each record in
input order with the shared batch identifier, a per-record ISO timestamp
(iso i for the i-th record of the batch), and
poc_id = len(received_transactions) + 1 read at its own append. -/
def appendBatch (bid : String) (iso : Nat → String) :
    List UserTransaction → Nat → Store → Store
  | [], _, store => store
  | t :: ts, i, store =>
      appendBatch bid iso ts (i + 1)
        (store ++ [dictOf t (iso i) (store.length + 1) (some bid)])

/-- The dictionaries appended by one batch call, written directly: i is the
index of the next record inside the batch and n the store length at the
time it is appended. -/
def batchRecords (bid : String) (iso : Nat → String) :
    List UserTransaction → Nat → Nat → Store
  | [], _, _ => []
  | t :: ts, i, n =>
      dictOf t (iso i) (n + 1) (some bid) :: batchRecords bid iso ts (i + 1) (n + 1)

/-- Handler of POST /webhook/user-transactions/batch
(receive_batch_transactions): computes batch_id once from the call time,
appends every record, and answers with the batch_id and
total_received = len(received_transactions) after the loop. -/
def receive_batch_transactions (store : Store) (txs : List UserTransaction)
    (now : DateTime) (iso : Nat → String) : Store × BatchResponse :=
  let bid := formatBatchId now
  let s2 := appendBatch bid iso txs 0 store
  (s2,
   { status := "success"
     message := "Batch of " ++ toString txs.length ++ " transactions received successfully"
     batch_id := bid
     total_received := s2.length })

/-- Handler of GET /webhook/user-transactions (get_received_transactions):
reads the store only. -/
def get_received_transactions (store : Store) (iso : String) : Store × ListResponse :=
  (store,
   { total_count := store.length
     last_10_transactions := if store = [] then [] else store.drop (store.length - 10)
     last_updated := iso
     poc_status := "active" })

/-- Handler of GET / (root): static metadata plus the current count. -/
def root (store : Store) (iso : String) : Store × RootResponse :=
  (store,
   { message := "Rakbank POC Kafka User Transaction Webhook Service"
     status := "running"
     timestamp := iso
     total_received := store.length
     service_source := "Confluent Cloud Flink"
     service_topic := "user_trans_hst_avro"
     service_purpose := "POC webhook endpoint" })

/-- Handler of GET /health (health_check). -/
def health_check (store : Store) (iso : String) : Store × HealthResponse :=
  (store,
   { status := "healthy"
     timestamp := iso
     service := "Rakbank POC Kafka Webhook"
     total_transactions := store.length })

/-- The comprehension in poc_statistics: usernames of stored records,
keeping only truthy values (dropping a missing username and the empty
string, which is falsy in Python). -/
def usersOf (store : Store) : List String :=
  store.filterMap (fun r =>
    match r.usrname with
    | some s => if s = "" then none else some s
    | none => none)

/-- The non-empty-store branch of poc_statistics.  list(set(users)) has no
specified enumeration order; it is modelled as List.dedup, which also
enumerates each distinct username once. -/
def dataStatsOf (store : Store) : DataStats :=
  { total_transactions := store.length
    unique_users := (usersOf store).dedup.length
    user_list := (usersOf store).dedup
    first_transaction := store.head?.map (fun r => r.received_at)
    last_transaction := store.getLast?.map (fun r => r.received_at)
    poc_status := "collecting_data" }

/-- Handler of GET /poc/stats (poc_statistics). -/
def poc_statistics (store : Store) : Store × (WaitingStats ⊕ DataStats) :=
  if store = [] then
    (store, Sum.inl ⟨"No transactions received yet", 0, "waiting_for_data"⟩)
  else
    (store, Sum.inr (dataStatsOf store))

/-- A JSON scalar as it can arrive in a request body field. -/
inductive JVal where
  | jnull : JVal
  | jint : Int → JVal
  | jstr : String → JVal
  | jbool : Bool → JVal
  deriving DecidableEq

/-- A request body for the single-ingest endpoint: each declared field is
absent or carries a JSON scalar (unknown fields are ignored by pydantic and
hence not modelled). -/
structure RequestBody where
  authorizer_usrnbr : Option JVal
  creat_usrnbr : Option JVal
  creat_time : Option JVal
  data : Option JVal
  usrname : Option JVal
  deriving DecidableEq

/-- Value of a list of decimal digit characters. -/
def natOfDigits (cs : List Char) : Nat :=
  cs.foldl (fun n c => 10 * n + (c.toNat - 48)) 0

/-- Reading a string as a decimal integer (optional leading minus sign),
as int() does on the strings relevant here; any other string fails. -/
def strToInt? (s : String) : Option Int :=
  match s.data with
  | [] => none
  | '-' :: cs =>
      if cs ≠ [] ∧ cs.all Char.isDigit then some (-(natOfDigits cs : Int)) else none
  | cs => if cs.all Char.isDigit then some ((natOfDigits cs : Int)) else none

/-- Pydantic coercion into Optional int: absent and null give None,
integers and bools pass, a string passes only when it reads as an integer,
and any other value is a validation error. -/
def coerceOptInt : Option JVal → Except String (Option Int)
  | none => Except.ok none
  | some JVal.jnull => Except.ok none
  | some (JVal.jint n) => Except.ok (some n)
  | some (JVal.jbool b) => Except.ok (some (if b then 1 else 0))
  | some (JVal.jstr s) =>
      match strToInt? s with
      | some n => Except.ok (some n)
      | none => Except.error "value is not a valid integer"

/-- Pydantic coercion into Optional str: absent and null give None, strings
pass, numbers and bools are rendered to strings. -/
def coerceOptStr : Option JVal → Except String (Option String)
  | none => Except.ok none
  | some JVal.jnull => Except.ok none
  | some (JVal.jstr s) => Except.ok (some s)
  | some (JVal.jint n) => Except.ok (some (toString n))
  | some (JVal.jbool b) => Except.ok (some (if b then "true" else "false"))

/-- Pydantic validation of a request body into a UserTransaction. -/
def parseUserTransaction (b : RequestBody) : Except String UserTransaction := do
  let a ← coerceOptInt b.authorizer_usrnbr
  let c ← coerceOptInt b.creat_usrnbr
  let ct ← coerceOptStr b.creat_time
  let d ← coerceOptStr b.data
  let u ← coerceOptStr b.usrname
  Except.ok ⟨a, c, ct, d, u⟩

/-- The single-ingest endpoint including the framework validation boundary:
a body that fails validation is rejected before the handler runs, so the
store is untouched; otherwise the handler executes. -/
def single_ingest_endpoint (store : Store) (b : RequestBody) (iso : String) :
    Store × Except String SingleResponse :=
  match parseUserTransaction b with
  | Except.error e => (store, Except.error e)
  | Except.ok t =>
      let p := receive_user_transaction store t iso
      (p.1, Except.ok p.2)

/-- A sample transaction used by concrete witnesses. -/
def txA : UserTransaction := ⟨none, none, none, none, some "alice"⟩

/-- A sample wall-clock reading used by concrete witnesses. -/
def dtA : DateTime := ⟨2025, 1, 2, 3, 4, 5⟩

/-- A stored record with a given username, used by concrete witnesses. -/
def recU (u : Option String) (pid : Nat) : StoredTransaction :=
  ⟨none, none, none, none, u, "t0", pid, none⟩

/-- A stored record with a given received_at, used by concrete witnesses. -/
def recAt (iso : String) (pid : Nat) : StoredTransaction :=
  ⟨none, none, none, none, none, iso, pid, none⟩

/-- Store holding exactly the usernames a, b, a, null, b. -/
def cstore7 : Store :=
  [recU (some "a") 1, recU (some "b") 2, recU (some "a") 3,
   recU none 4, recU (some "b") 5]

/-- Two-record store with distinct received_at stamps. -/
def cstore9 : Store := [recAt "t1" 1, recAt "t2" 2]

/-- A request body whose authorizer_usrnbr field holds the non-integer
string abc. -/
def badBody : RequestBody := ⟨some (JVal.jstr "abc"), none, none, none, none⟩

/-- Running single-ingest calls appends exactly the expected dictionaries
and produces exactly the expected responses. -/
theorem runSingles_eq (calls : List (UserTransaction × String)) :
    ∀ store : Store,
      runSingles calls store =
        (store ++ singleRecords store.length calls,
         expectedResponses store.length calls) := by
  induction calls with
  | nil => intro store; simp [runSingles, singleRecords, expectedResponses]
  | cons c rest ih =>
      intro store
      obtain ⟨t, iso⟩ := c
      simp only [runSingles, receive_user_transaction, singleRecords, expectedResponses]
      rw [ih (store ++ [dictOf t iso (store.length + 1) none])]
      simp [List.append_assoc]

theorem singleRecords_length (calls : List (UserTransaction × String)) :
    ∀ n : Nat, (singleRecords n calls).length = calls.length := by
  induction calls with
  | nil => intro n; rfl
  | cons c rest ih =>
      intro n
      obtain ⟨t, iso⟩ := c
      simp [singleRecords, ih]

theorem singleRecords_map_txOf (calls : List (UserTransaction × String)) :
    ∀ n : Nat, (singleRecords n calls).map txOf = calls.map Prod.fst := by
  induction calls with
  | nil => intro n; rfl
  | cons c rest ih =>
      intro n
      obtain ⟨t, iso⟩ := c
      simp [singleRecords, ih, txOf, dictOf]

theorem singleRecords_get_poc_id (calls : List (UserTransaction × String)) :
    ∀ (n k : Nat) (h : k < (singleRecords n calls).length),
      ((singleRecords n calls).get ⟨k, h⟩).poc_id = n + k + 1 := by
  induction calls with
  | nil => intro n k h; simp [singleRecords] at h
  | cons c rest ih =>
      intro n k h
      obtain ⟨t, iso⟩ := c
      cases k with
      | zero => simp [singleRecords, dictOf]
      | succ k =>
          have h' : k < (singleRecords (n + 1) rest).length := by
            simpa [singleRecords] using h
          have := ih (n + 1) k h'
          simpa [singleRecords, Nat.add_assoc, Nat.add_comm, Nat.add_left_comm] using this

theorem expectedResponses_length (calls : List (UserTransaction × String)) :
    ∀ n : Nat, (expectedResponses n calls).length = calls.length := by
  induction calls with
  | nil => intro n; rfl
  | cons c rest ih =>
      intro n
      obtain ⟨t, iso⟩ := c
      simp [expectedResponses, ih]

theorem expectedResponses_get_poc_id (calls : List (UserTransaction × String)) :
    ∀ (n k : Nat) (h : k < (expectedResponses n calls).length),
      ((expectedResponses n calls).get ⟨k, h⟩).poc_id = n + k + 1 := by
  induction calls with
  | nil => intro n k h; simp [expectedResponses] at h
  | cons c rest ih =>
      intro n k h
      obtain ⟨t, iso⟩ := c
      cases k with
      | zero => simp [expectedResponses]
      | succ k =>
          have h' : k < (expectedResponses (n + 1) rest).length := by
            simpa [expectedResponses] using h
          have := ih (n + 1) k h'
          simpa [expectedResponses, Nat.add_assoc, Nat.add_comm, Nat.add_left_comm] using this

/-- The batch loop appends exactly the batchRecords dictionaries. -/
theorem appendBatch_eq (bid : String) (iso : Nat → String)
    (txs : List UserTransaction) :
    ∀ (i : Nat) (store : Store),
      appendBatch bid iso txs i store =
        store ++ batchRecords bid iso txs i store.length := by
  induction txs with
  | nil => intro i store; simp [appendBatch, batchRecords]
  | cons t ts ih =>
      intro i store
      simp only [appendBatch, batchRecords]
      rw [ih (i + 1) (store ++ [dictOf t (iso i) (store.length + 1) (some bid)])]
      simp [List.append_assoc]

theorem batchRecords_length (bid : String) (iso : Nat → String)
    (txs : List UserTransaction) :
    ∀ (i n : Nat), (batchRecords bid iso txs i n).length = txs.length := by
  induction txs with
  | nil => intro i n; rfl
  | cons t ts ih => intro i n; simp [batchRecords, ih]

theorem batchRecords_map_batch_id (bid : String) (iso : Nat → String)
    (txs : List UserTransaction) :
    ∀ (i n : Nat),
      (batchRecords bid iso txs i n).map (fun r => r.batch_id) =
        List.replicate txs.length (some bid) := by
  induction txs with
  | nil => intro i n; rfl
  | cons t ts ih =>
      intro i n
      simp [batchRecords, dictOf, ih, List.replicate_succ]

theorem digitChar_isDigit (n : Nat) : (digitChar n).isDigit = true := by
  have h : n % 10 < 10 := Nat.mod_lt _ (by omega)
  unfold digitChar
  revert h
  generalize n % 10 = m
  intro h
  interval_cases m <;> decide

/-- Every batch identifier produced by formatBatchId has the
YYYYMMDD underscore HHMMSS shape. -/
theorem formatBatchId_shape (t : DateTime) :
    isBatchIdShape (formatBatchId t) = true := by
  simp [formatBatchId, isBatchIdShape, pad4d, pad2d, digitChar_isDigit]

theorem userFilterFun (u : Option String) (s : String) :
    (match u with
     | some v => if v = "" then none else some v
     | none => none) = some s ↔ u = some s ∧ s ≠ "" := by
  cases u with
  | none => simp
  | some v =>
      by_cases h : v = ""
      · simp [h]
        intro hs
        exact hs.symm
      · simp [h]
        rintro rfl
        exact h

theorem mem_usersOf (store : Store) (s : String) :
    s ∈ usersOf store ↔ ∃ r, r ∈ store ∧ r.usrname = some s ∧ s ≠ "" := by
  unfold usersOf
  rw [List.mem_filterMap]
  exact exists_congr fun r => and_congr_right fun _ => userFilterFun r.usrname s

/-- Claim C1: starting from the empty store, the k-th (zero-based k)
successful single-ingest call returns poc_id (the sequence identifier)
equal to k + 1, and the k-th stored record is assigned the same poc_id,
i.e. the count before the insert plus one. -/
theorem c1_sequential_sequence_id (calls : List (UserTransaction × String)) (k : Nat)
    (h1 : k < ((runSingles calls ([] : Store)).2).length)
    (h2 : k < ((runSingles calls ([] : Store)).1).length) :
    (((runSingles calls ([] : Store)).2).get ⟨k, h1⟩).poc_id = k + 1
    ∧ (((runSingles calls ([] : Store)).1).get ⟨k, h2⟩).poc_id = k + 1 := by
  have hresp : (runSingles calls ([] : Store)).2 = expectedResponses 0 calls := by
    rw [runSingles_eq]
    rfl
  have hstore : (runSingles calls ([] : Store)).1 = singleRecords 0 calls := by
    rw [runSingles_eq]
    simp
  constructor
  · rw [List.get_of_eq hresp ⟨k, h1⟩, expectedResponses_get_poc_id]
    show 0 + k + 1 = k + 1
    omega
  · rw [List.get_of_eq hstore ⟨k, h2⟩, singleRecords_get_poc_id]
    show 0 + k + 1 = k + 1
    omega

/-- Witness for C1 at one concrete call. -/
theorem c1_witness :
    (((runSingles [(txA, "t1")] ([] : Store)).2).get ⟨0, by decide⟩).poc_id = 0 + 1
    ∧ (((runSingles [(txA, "t1")] ([] : Store)).1).get ⟨0, by decide⟩).poc_id = 0 + 1 :=
  c1_sequential_sequence_id [(txA, "t1")] 0 (by decide) (by decide)

/-- Claim C2 (amended): the batch response field total_received is the
length of the whole store after the call, i.e. the prior store length plus
the number of records in the request; it equals the batch size only when
the store was empty before the call. -/
theorem c2_batch_total_received (store : Store) (txs : List UserTransaction)
    (now : DateTime) (iso : Nat → String) :
    (receive_batch_transactions store txs now iso).2.total_received
      = store.length + txs.length
    ∧ (receive_batch_transactions store txs now iso).2.total_received
      = (receive_batch_transactions store txs now iso).1.length := by
  have h := appendBatch_eq (formatBatchId now) iso txs 0 store
  constructor
  · simp [receive_batch_transactions, h, batchRecords_length]
  · rfl

/-- Counterexample to C2 as stated: with one record already stored, a batch
of two records reports total_received = 3, not the batch size 2. -/
theorem c2_counterexample :
    (receive_batch_transactions [recU (some "alice") 1] [txA, txA] dtA
        (fun _ => "t1")).2.total_received = 3
    ∧ (receive_batch_transactions [recU (some "alice") 1] [txA, txA] dtA
        (fun _ => "t1")).2.total_received ≠ 2 := by
  constructor
  · rfl
  · decide

/-- Claim C3: every record appended by one batch call carries the identical
batch_id string, computed once from the call time; the same string is
returned in the response, and it has the YYYYMMDD underscore HHMMSS
shape. -/
theorem c3_batch_id_shared (store : Store) (txs : List UserTransaction)
    (now : DateTime) (iso : Nat → String) :
    ((receive_batch_transactions store txs now iso).1.drop store.length).map
        (fun r => r.batch_id)
      = List.replicate txs.length (some (formatBatchId now))
    ∧ (receive_batch_transactions store txs now iso).2.batch_id = formatBatchId now
    ∧ isBatchIdShape ((receive_batch_transactions store txs now iso).2.batch_id)
        = true := by
  refine ⟨?_, rfl, formatBatchId_shape now⟩
  have h1 : (receive_batch_transactions store txs now iso).1
      = store ++ batchRecords (formatBatchId now) iso txs 0 store.length := by
    simpa [receive_batch_transactions] using
      appendBatch_eq (formatBatchId now) iso txs 0 store
  rw [h1, List.drop_left, batchRecords_map_batch_id]

/-- Claim C4: the list-recent response reports total_count equal to the
store length, and last_10_transactions is exactly the suffix of the store
of length min(total_count, 10), i.e. the most recently appended records in
arrival order (empty when the store is empty). -/
theorem c4_list_recent (store : Store) (iso : String) :
    (get_received_transactions store iso).2.total_count = store.length
    ∧ (get_received_transactions store iso).2.last_10_transactions.length
        = min store.length 10
    ∧ store.take (store.length - 10) ++
        (get_received_transactions store iso).2.last_10_transactions = store := by
  by_cases h : store = []
  · subst h
    refine ⟨rfl, ?_, ?_⟩ <;> simp [get_received_transactions]
  · refine ⟨rfl, ?_, ?_⟩
    · simp only [get_received_transactions, if_neg h, List.length_drop]
      omega
    · simp only [get_received_transactions, if_neg h]
      exact List.take_append_drop _ _

/-- Claim C5: N sequential single-ingest calls append exactly one record
each at the end of the store and never remove or modify records: any prior
store is preserved as a prefix, and from the empty store the final count is
N with the stored records carrying the request payloads in call order. -/
theorem c5_append_only (calls : List (UserTransaction × String)) (store : Store) :
    (runSingles calls store).1.take store.length = store
    ∧ (runSingles calls ([] : Store)).1.length = calls.length
    ∧ (runSingles calls ([] : Store)).1.map txOf = calls.map Prod.fst := by
  refine ⟨?_, ?_, ?_⟩
  · rw [runSingles_eq]
    exact List.take_left _ _
  · rw [runSingles_eq]
    simp [singleRecords_length]
  · rw [runSingles_eq]
    simp [singleRecords_map_txOf]

/-- Claim C6: a request body that fails pydantic coercion makes the single
ingest endpoint answer a validation error and leaves the store identical to
before the call. -/
theorem c6_validation_error (store : Store) (b : RequestBody) (iso : String)
    (e : String) (h : parseUserTransaction b = Except.error e) :
    (single_ingest_endpoint store b iso).1 = store
    ∧ (single_ingest_endpoint store b iso).2 = Except.error e := by
  simp [single_ingest_endpoint, h]

/-- Witness for C6: a body whose authorizer_usrnbr is the string abc is
rejected and a one-record store is left unchanged. -/
theorem c6_witness :
    (single_ingest_endpoint [recU (some "alice") 1] badBody "t2").1
        = [recU (some "alice") 1]
    ∧ (single_ingest_endpoint [recU (some "alice") 1] badBody "t2").2
        = Except.error "value is not a valid integer" :=
  c6_validation_error [recU (some "alice") 1] badBody "t2"
    "value is not a valid integer" rfl

/-- Claim C7: on a non-empty store the statistics endpoint answers the data
variant, whose user_list enumerates each distinct non-empty username
exactly once (s is listed iff some stored record has username s and s is
not the empty string) and whose unique_users is the length of that
duplicate-free list, i.e. the number of distinct non-empty usernames. -/
theorem c7_stats_distinct_users (store : Store) (h : store ≠ []) :
    (poc_statistics store).2 = Sum.inr (dataStatsOf store)
    ∧ (dataStatsOf store).unique_users = (dataStatsOf store).user_list.length
    ∧ (dataStatsOf store).user_list.Nodup
    ∧ ∀ s : String,
        s ∈ (dataStatsOf store).user_list ↔
          ∃ r, r ∈ store ∧ r.usrname = some s ∧ s ≠ "" := by
  refine ⟨by simp [poc_statistics, h], rfl, List.nodup_dedup _, ?_⟩
  intro s
  show s ∈ (usersOf store).dedup ↔ _
  rw [List.mem_dedup]
  exact mem_usersOf store s

/-- Witness for C7 at the usernames a, b, a, null, b: two distinct users
and user set a, b. -/
theorem c7_witness :
    (poc_statistics cstore7).2 = Sum.inr (dataStatsOf cstore7)
    ∧ (dataStatsOf cstore7).unique_users = 2
    ∧ (dataStatsOf cstore7).user_list = ["a", "b"] :=
  ⟨(c7_stats_distinct_users cstore7 (by decide)).1, by decide, by decide⟩

/-- Claim C8: on the empty store the statistics endpoint answers the
waiting_for_data variant with total_count 0, never the data variant. -/
theorem c8_stats_empty (store : Store) (h : store = []) :
    (poc_statistics store).2
      = Sum.inl ⟨"No transactions received yet", 0, "waiting_for_data"⟩ := by
  subst h
  rfl

/-- Witness for C8 at the empty store. -/
theorem c8_witness :
    (poc_statistics ([] : Store)).2
      = Sum.inl ⟨"No transactions received yet", 0, "waiting_for_data"⟩ :=
  c8_stats_empty [] rfl

/-- Claim C9: on a non-empty store the statistics endpoint answers the data
variant with first_transaction the received_at of the earliest appended
record and last_transaction the received_at of the most recently appended
record. -/
theorem c9_stats_first_last (store : Store) (h : store ≠ []) :
    (poc_statistics store).2 = Sum.inr (dataStatsOf store)
    ∧ (dataStatsOf store).first_transaction = some (store.head h).received_at
    ∧ (dataStatsOf store).last_transaction = some (store.getLast h).received_at := by
  refine ⟨by simp [poc_statistics, h], ?_, ?_⟩
  · show store.head?.map (fun r => r.received_at) = _
    rw [List.head?_eq_head h]
    rfl
  · show store.getLast?.map (fun r => r.received_at) = _
    rw [List.getLast?_eq_getLast_of_ne_nil h]
    rfl

/-- Witness for C9 at a two-record store with stamps t1 and t2. -/
theorem c9_witness :
    (poc_statistics cstore9).2 = Sum.inr (dataStatsOf cstore9)
    ∧ (dataStatsOf cstore9).first_transaction = some "t1"
    ∧ (dataStatsOf cstore9).last_transaction = some "t2" :=
  ⟨(c9_stats_first_last cstore9 (by decide)).1, by decide, by decide⟩

/-- Claim C10: the four read-only handlers (root, list recent, health
check, statistics) return the store they were given, unchanged. -/
theorem c10_reads_pure (store : Store) (iso : String) :
    (root store iso).1 = store
    ∧ (get_received_transactions store iso).1 = store
    ∧ (health_check store iso).1 = store
    ∧ (poc_statistics store).1 = store := by
  refine ⟨rfl, rfl, rfl, ?_⟩
  by_cases h : store = [] <;> simp [poc_statistics, h]
